/-
Verification of the AI text-generation relay backend.

This file gives a shallow embedding of the request endpoint
(backend/main.py, function generate_text with helper _check_api_key) and of
the two provider adapters (llm_utils/openai_utils.py, function
get_openai_chat_response; llm_utils/google_utils.py, function
get_google_gemini_response), and proves the spec's testable properties about
them.

Modelling conventions:
  - Python byte strings are `List Nat` (each entry a byte value).
  - Python `None` is `Option.none`; Python truthiness of optional strings and
    byte strings is made explicit (`strTruthy`, `bytesTruthy`).
  - The outbound SDK calls are modelled as oracle function parameters: the
    adapter builds the exact request payload the source builds, passes it to
    the oracle, and interprets the oracle's outcome with the source's
    response-handling code. "No outbound call is made" is then expressed as
    the result being independent of the oracle.
  - `bytes.decode` is modelled by an executable UTF-8 decoder `utf8Decode`
    parameterised by the Python error handler (`errors="ignore"` drops the
    offending maximal subpart, `errors="replace"` replaces it with U+FFFD).
  - The model names loaded from config.json at import time (the file is not
    part of the repository) are parameters of the embedding.
-/
import Mathlib

namespace Relay

/-! ## Python-style primitives -/

/-- Python truthiness of an optional string: `None` and `""` are falsy. -/
def strTruthy : Option String → Bool
  | none => false
  | some s => !s.isEmpty

/-- Python truthiness of optional bytes: `None` and `b""` are falsy. -/
def bytesTruthy : Option (List Nat) → Bool
  | none => false
  | some bs => !bs.isEmpty

/-- `needle` begins `hay` (list version). -/
def beginsList : List Char → List Char → Bool
  | [], _ => true
  | _ :: _, [] => false
  | a :: as, b :: bs => a == b && beginsList as bs

/-- `needle` occurs contiguously inside `hay` (list version). -/
def hasSubList (needle hay : List Char) : Bool :=
  beginsList needle hay ||
    match hay with
    | [] => false
    | _ :: t => hasSubList needle t

/-- Python `needle in hay` on strings. -/
def containsStr (hay needle : String) : Bool :=
  hasSubList needle.toList hay.toList

/-- Python `s.startswith(pre)`. -/
def startsWithStr (s pre : String) : Bool :=
  beginsList pre.toList s.toList

/-- Python `str.lower()` (the strings involved are ASCII). -/
def pyLower (s : String) : String :=
  String.mk (s.toList.map Char.toLower)

/-- Python whitespace, as stripped by `str.strip()` (ASCII range). -/
def isPySpace (c : Char) : Bool :=
  c = ' ' || c = '\t' || c = '\n' || c = '\x0d' || c = '\x0b' || c = '\x0c'

/-- Python `str.strip()`: drop leading and trailing whitespace. -/
def pyStrip (s : String) : String :=
  String.mk (((s.toList.dropWhile isPySpace).reverse.dropWhile isPySpace).reverse)

/-! ## UTF-8 decoding (`bytes.decode`) -/

/-- The Python error handler passed to `bytes.decode(errors=...)`. -/
inductive DecodeErrors where
  | ignore
  | replace
deriving DecidableEq

/-- Output for one invalid maximal subpart: dropped under `errors="ignore"`,
a single U+FFFD under `errors="replace"`. -/
def errorChars : DecodeErrors → List Char
  | .ignore => []
  | .replace => [Char.ofNat 0xFFFD]

/-- A UTF-8 continuation byte. -/
def isCont (b : Nat) : Bool := 0x80 ≤ b && b ≤ 0xBF

/-- Valid first continuation byte of a three-byte sequence (excludes
overlong encodings for lead 0xE0 and surrogates for lead 0xED). -/
def cont1Ok3 (b c1 : Nat) : Bool :=
  if b = 0xE0 then 0xA0 ≤ c1 && c1 ≤ 0xBF
  else if b = 0xED then 0x80 ≤ c1 && c1 ≤ 0x9F
  else isCont c1

/-- Valid first continuation byte of a four-byte sequence (excludes
overlong encodings for lead 0xF0 and values above U+10FFFF for lead 0xF4). -/
def cont1Ok4 (b c1 : Nat) : Bool :=
  if b = 0xF0 then 0x90 ≤ c1 && c1 ≤ 0xBF
  else if b = 0xF4 then 0x80 ≤ c1 && c1 ≤ 0x8F
  else isCont c1

/-- UTF-8 decoding with Python's error handling, structured on a fuel
parameter (any fuel at least the list length is exact): an invalid maximal
subpart (an invalid lead byte, or a valid lead with its longest run of valid
continuation bytes that does not complete a character) yields `errorChars`
and decoding resumes at the following byte. -/
def utf8DecodeAux (mode : DecodeErrors) : Nat → List Nat → List Char
  | _, [] => []
  | 0, _ :: _ => []
  | fuel + 1, b :: rest =>
    if b ≤ 0x7F then
      Char.ofNat b :: utf8DecodeAux mode fuel rest
    else if 0xC2 ≤ b && b ≤ 0xDF then
      match rest with
      | c1 :: rest1 =>
        if isCont c1 then
          Char.ofNat ((b - 0xC0) * 0x40 + (c1 - 0x80)) :: utf8DecodeAux mode fuel rest1
        else errorChars mode ++ utf8DecodeAux mode fuel rest
      | [] => errorChars mode
    else if 0xE0 ≤ b && b ≤ 0xEF then
      match rest with
      | c1 :: rest1 =>
        if cont1Ok3 b c1 then
          match rest1 with
          | c2 :: rest2 =>
            if isCont c2 then
              Char.ofNat ((b - 0xE0) * 0x1000 + (c1 - 0x80) * 0x40 + (c2 - 0x80)) ::
                utf8DecodeAux mode fuel rest2
            else errorChars mode ++ utf8DecodeAux mode fuel rest1
          | [] => errorChars mode
        else errorChars mode ++ utf8DecodeAux mode fuel rest
      | [] => errorChars mode
    else if 0xF0 ≤ b && b ≤ 0xF4 then
      match rest with
      | c1 :: rest1 =>
        if cont1Ok4 b c1 then
          match rest1 with
          | c2 :: rest2 =>
            if isCont c2 then
              match rest2 with
              | c3 :: rest3 =>
                if isCont c3 then
                  Char.ofNat ((b - 0xF0) * 0x40000 + (c1 - 0x80) * 0x1000 +
                      (c2 - 0x80) * 0x40 + (c3 - 0x80)) :: utf8DecodeAux mode fuel rest3
                else errorChars mode ++ utf8DecodeAux mode fuel rest2
              | [] => errorChars mode
            else errorChars mode ++ utf8DecodeAux mode fuel rest1
          | [] => errorChars mode
        else errorChars mode ++ utf8DecodeAux mode fuel rest
      | [] => errorChars mode
    else
      errorChars mode ++ utf8DecodeAux mode fuel rest

/-- `bytes.decode(errors=mode)` for UTF-8. -/
def utf8Decode (mode : DecodeErrors) (bs : List Nat) : List Char :=
  utf8DecodeAux mode bs.length bs

example : String.mk (utf8Decode .ignore [0x68, 0x69]) = "hi" := by decide
example : String.mk (utf8Decode .replace [0xFF]) = "�" := by decide
example : String.mk (utf8Decode .ignore [0xFF]) = "" := by decide
example : String.mk (utf8Decode .replace [0xE2, 0x82, 0xAC]) = "€" := by decide

/-! ## OpenAI adapter (llm_utils/openai_utils.py, get_openai_chat_response) -/

/-- One chat message dict, as built by the adapter. -/
structure ChatMessage where
  role : String
  content : String
deriving DecidableEq

/-- The payload handed to `client.chat.completions.create`. -/
structure OpenAIRequest where
  model : String
  messages : List ChatMessage
  max_tokens : Nat
deriving DecidableEq

/-- `response.choices[i].message` (None models a falsy message object). -/
structure OpenAIChatMsg where
  content : Option String
deriving DecidableEq

/-- One element of `response.choices`. -/
structure OpenAIChoice where
  message : Option OpenAIChatMsg
deriving DecidableEq

/-- Outcome of the outbound call: a response object, or one of the exception
classes caught by the source (each carrying its rendered message; for
`openai.APIError` also `e.status_code` and `e.type` as rendered). -/
inductive OpenAIOutcome where
  | success (choices : List OpenAIChoice)
  | connectionError (e : String)
  | rateLimitError (e : String)
  | authError (e : String)
  | apiError (message : String) (status_code : String) (etype : String)
  | otherError (e : String)

/-- Message-list construction of get_openai_chat_response (source lines
84-118): an optional system message embedding the first-2000-byte excerpt
decoded with errors="ignore", then the user message with the prompt.
The source's try/except around `.decode` is dead for errors="ignore",
which never raises on bytes input, so the model is total. -/
def buildOpenAIMessages (prompt : String) (file_content : Option (List Nat))
    (filename : Option String) : List ChatMessage :=
  let base : List ChatMessage :=
    if bytesTruthy file_content && strTruthy filename then
      let file_text_snippet := String.mk (utf8Decode .ignore ((file_content.getD []).take 2000))
      [⟨"system", "The user has uploaded a file named \x27" ++ filename.getD "" ++
          "\x27. Its content (first 2000 characters) is: " ++ file_text_snippet⟩]
    else if bytesTruthy file_content && !strTruthy filename then
      let file_text_snippet := String.mk (utf8Decode .ignore ((file_content.getD []).take 2000))
      [⟨"system", "The user has uploaded a file (name not provided). Its content " ++
          "(first 2000 characters) is: " ++ file_text_snippet⟩]
    else []
  base ++ [⟨"user", prompt⟩]

/-- Response interpretation and exception mapping of get_openai_chat_response
(source lines 120-159). -/
def handleOpenAIOutcome : OpenAIOutcome → String
  | .success choices =>
    match choices with
    | ⟨some m⟩ :: _ =>
      match m.content with
      | some s => if s.isEmpty then "Error: OpenAI returned an empty response." else pyStrip s
      | none => "Error: OpenAI returned an empty response."
    | ⟨none⟩ :: _ => "Error: Received an invalid or incomplete response structure from OpenAI."
    | [] => "Error: Received an invalid or incomplete response structure from OpenAI."
  | .connectionError e => "Error: OpenAI API Connection Error - " ++ e
  | .rateLimitError e => "Error: OpenAI API Rate Limit Exceeded - " ++ e
  | .authError e =>
      "Error: OpenAI API Authentication Error - " ++ e ++
        ". Ensure your OPENAI_API_KEY is correct and active."
  | .apiError message status_code etype =>
      "Error: OpenAI API Error - " ++ message ++ " (Status Code: " ++ status_code ++
        ", Type: " ++ etype ++ ")"
  | .otherError e => "Error: An unexpected error occurred while interacting with OpenAI - " ++ e

/-- get_openai_chat_response: key check, message building, outbound call
(modelled by the oracle `callApi`), response interpretation. The default
model name loaded from config.json is the parameter `defaultModel`. -/
def get_openai_chat_response (defaultModel : String) (apiKey : Option String)
    (prompt : String) (file_content : Option (List Nat)) (filename : Option String)
    (callApi : OpenAIRequest → OpenAIOutcome) : String :=
  if !strTruthy apiKey then
    "Error: OPENAI_API_KEY not found in environment variables. Please set it in your " ++
      ".env file or system environment."
  else
    handleOpenAIOutcome (callApi ⟨defaultModel, buildOpenAIMessages prompt file_content filename, 1024⟩)

/-! ## Google adapter (llm_utils/google_utils.py, get_google_gemini_response) -/

/-- One element of the `contents` list passed to `generate_content`: a plain
string, or a `Part.from_bytes(data=..., mime_type=...)`. -/
inductive GoogleContent where
  | text (s : String)
  | imagePart (data : List Nat) (mime_type : String)
deriving DecidableEq

/-- The payload handed to the SDK: the model name given to GenerativeModel
and the `contents` of generate_content. -/
structure GoogleRequest where
  model : String
  contents : List GoogleContent
deriving DecidableEq

/-- One safety rating (`sr.category.name`, `sr.probability.name`). -/
structure SafetyRating where
  category : String
  probability : String
deriving DecidableEq

/-- `response.prompt_feedback` (None models a falsy feedback object;
`block_reason` is None when the enum is falsy/unspecified). -/
structure PromptFeedback where
  block_reason : Option String
  safety_ratings : List SafetyRating
deriving DecidableEq

/-- One element of `response.candidates`. -/
structure Candidate where
  finish_reason : String
  safety_ratings : List SafetyRating
deriving DecidableEq

/-- A `generate_content` response object: `text` is None when accessing
`response.text` raises ValueError (blocked response). -/
structure GoogleResponse where
  prompt_feedback : Option PromptFeedback
  candidates : List Candidate
  text : Option String
deriving DecidableEq

/-- Which `GoogleAPIError` subclass an exception instance is. -/
inductive GoogleErrorKind where
  | permissionDenied
  | resourceExhausted
  | plain
deriving DecidableEq

/-- Outcome of the outbound call: a response object, or one of the exception
classes caught by the source (message and class name as rendered). -/
inductive GoogleOutcome where
  | response (r : GoogleResponse)
  | invalidArgumentError (e : String)
  | googleApiError (kind : GoogleErrorKind) (e : String) (typeName : String)
  | otherError (e : String) (typeName : String)

/-- `", ".join(f"CATEGORY: PROBABILITY" ...)` over safety ratings. -/
def safetyStr (rs : List SafetyRating) : String :=
  String.intercalate ", " (rs.map fun sr => sr.category ++ ": " ++ sr.probability)

/-- Reading `response.text` and the empty/blocked checks (source lines
152-173). -/
def handleGoogleText (r : GoogleResponse) : String :=
  match r.text with
  | none =>
      "Error: Content generation failed. The prompt was likely blocked by Google API " ++
        "due to safety filters or other policy reasons. Please review prompt_feedback " ++
        "for details if available."
  | some generated_text =>
    if generated_text.isEmpty then
      match r.candidates with
      | c :: _ =>
        if c.finish_reason ≠ "STOP" then
          "Error: Google Gemini returned no content. Finish Reason: " ++ c.finish_reason ++
            ". Safety: [" ++ safetyStr c.safety_ratings ++ "]"
        else
          "Error: Received an empty response from Google Gemini. The prompt may have " ++
            "been too vague or resulted in no actionable output."
      | [] =>
          "Error: Received an empty response from Google Gemini. The prompt may have " ++
            "been too vague or resulted in no actionable output."
    else pyStrip generated_text

/-- Response interpretation of the Google adapter (source lines 143-173):
prompt_feedback block check first, then the text path. -/
def handleGoogleResponse (r : GoogleResponse) : String :=
  match r.prompt_feedback with
  | some pf =>
    match pf.block_reason with
    | some block_reason_name =>
        "Error: Prompt blocked by Google API. Reason: " ++ block_reason_name ++
          ". Safety Ratings: [" ++ safetyStr pf.safety_ratings ++ "]"
    | none => handleGoogleText r
  | none => handleGoogleText r

/-- Exception mapping of the Google adapter (source lines 176-192);
`modelName` is `model_name_to_use`, spliced into the model-not-found hint. -/
def handleGoogleOutcome (modelName : String) : GoogleOutcome → String
  | .response r => handleGoogleResponse r
  | .invalidArgumentError e =>
      "Error: Google API Invalid Argument - " ++ e ++ ". This often means an issue " ++
        "with the request structure (e.g. malformed \x60contents\x60 or invalid \x60mime_type\x60)."
  | .googleApiError kind e typeName =>
    let error_message := "Error: Google API Error - " ++ e ++ " (Type: " ++ typeName ++ ")."
    match kind with
    | .permissionDenied =>
        error_message ++ " This indicates an issue with your GOOGLE_API_KEY (e.g., " ++
          "invalid, disabled, or missing necessary permissions for the Gemini API). " ++
          "Please verify your API key and ensure the \x27Generative Language API\x27 or " ++
          "\x27Vertex AI API\x27 (if using Vertex) is enabled in your Google Cloud Project."
    | .resourceExhausted =>
        error_message ++ " You may have exceeded your API quota (Rate Limit). Please " ++
          "check your usage and limits in the Google Cloud Console."
    | .plain =>
      if containsStr (pyLower e) "model" &&
          (containsStr (pyLower e) "not found" || containsStr (pyLower e) "could not find") then
        error_message ++ " The requested model (\x27" ++ modelName ++ "\x27) might not be " ++
          "found, not available for your project/region, or the name is misspelled."
      else error_message
  | .otherError e typeName =>
      "Error: An unexpected error occurred while interacting with Google Generative AI - " ++
        e ++ " (Type: " ++ typeName ++ ")"

/-- The source's branch condition for the vision path:
`'image' in mime_type.lower()`. -/
def indicatesImage (mime_type : String) : Bool :=
  containsStr (pyLower mime_type) "image"

/-- Payload construction of get_google_gemini_response (source lines
89-133): model selection and `input_contents`, or an early "Error: ..."
return. The source's try/except around `.decode(errors="replace")` is dead
(that decode never raises on bytes input), so the non-image branch is
total. -/
def buildGoogleRequest (defaultModel visionModel : String) (prompt : String)
    (file_content : Option (List Nat)) (filename : Option String)
    (mime_type : Option String) : Except String GoogleRequest :=
  if bytesTruthy file_content then
    if !strTruthy filename || !strTruthy mime_type then
      .error ("Error: File content provided without filename or MIME type. Both are " ++
        "required for Google Gemini.")
    else
      let mt := mime_type.getD ""
      if indicatesImage mt then
        .ok ⟨visionModel, [.text prompt, .imagePart (file_content.getD []) mt]⟩
      else
        let file_text_snippet :=
          String.mk (utf8Decode .replace ((file_content.getD []).take 50000))
        let enhanced_prompt :=
          prompt ++ "\n\n--- User Uploaded File: " ++ filename.getD "" ++
            " (MIME type: " ++ mt ++ ") ---\n" ++ file_text_snippet ++
            "\n--- End of File Content ---"
        .ok ⟨defaultModel, [.text enhanced_prompt]⟩
  else
    .ok ⟨defaultModel, [.text prompt]⟩

/-- get_google_gemini_response: key check, SDK configure step (modelled by
`configureError`: the exception message if `configure` raised), payload
construction, outbound call (oracle `callApi`), response interpretation.
The model names loaded from config.json are the first two parameters. -/
def get_google_gemini_response (defaultModel visionModel : String)
    (apiKey : Option String) (prompt : String) (file_content : Option (List Nat))
    (filename : Option String) (mime_type : Option String)
    (configureError : Option String) (callApi : GoogleRequest → GoogleOutcome) : String :=
  if !strTruthy apiKey then
    "Error: GOOGLE_API_KEY not found in environment variables. Please set it in your " ++
      ".env file or system environment."
  else
    match configureError with
    | some e =>
        "Error: Failed to configure Google GenAI SDK - " ++ e ++
          ". Check API key and library installation."
    | none =>
      match buildGoogleRequest defaultModel visionModel prompt file_content filename mime_type with
      | .error e => e
      | .ok req => handleGoogleOutcome req.model (callApi req)

/-! ## Request endpoint (backend/main.py) -/

/-- The process environment slice the endpoint reads:
`os.getenv("OPENAI_API_KEY")` and `os.getenv("GOOGLE_API_KEY")`. -/
structure Env where
  openaiKey : Option String
  googleKey : Option String

/-- The model names resolved from config.json at import time by the two
adapter modules (the config file is not part of the repository). -/
structure ModelNames where
  openai_default_model : String
  google_default_model : String
  google_vision_model : String

/-- An incoming UploadFile: `filename`, `content_type`, and the result of
`await file.read()` (error = the exception's string form). -/
structure FileUpload where
  filename : Option String
  content_type : Option String
  read_result : Except String (List Nat)

/-- What the endpoint produces: the JSON success body, or an HTTPException
with status code and detail. -/
inductive EndpointResult where
  | ok (response : String)
  | httpError (status : Nat) (detail : String)
deriving DecidableEq

/-- _check_api_key (source lines 44-61): `some` is the raised
HTTPException, `none` means the check passed. -/
def _check_api_key (env : Env) (provider : String) : Option EndpointResult :=
  if provider == "openai" then
    if strTruthy env.openaiKey then none
    else some (.httpError 500 "OPENAI_API_KEY not configured. Please set it in the .env file.")
  else if provider == "google" then
    if strTruthy env.googleKey then none
    else some (.httpError 500 "GOOGLE_API_KEY not configured. Please set it in the .env file.")
  else none

/-- `file_content` after the file-handling block (None when no file). -/
def fileBytes : Option FileUpload → Option (List Nat)
  | none => none
  | some f => f.read_result.toOption

/-- `filename` after the file-handling block. -/
def fileName : Option FileUpload → Option String
  | none => none
  | some f => f.filename

/-- `mime_type` after the file-handling block. -/
def fileMime : Option FileUpload → Option String
  | none => none
  | some f => f.content_type

/-- The exception raised while reading the file, if any. -/
def fileReadError : Option FileUpload → Option String
  | none => none
  | some f => match f.read_result with
    | .error e => some e
    | .ok _ => none

/-- The adapter dispatch (source lines 103-109): `response_text` starts as
`""` and is produced by the matching adapter. -/
def adapterResponse (names : ModelNames) (env : Env) (provider text : String)
    (file_content : Option (List Nat)) (filename mime_type : Option String)
    (openaiCall : OpenAIRequest → OpenAIOutcome) (googleConfigureError : Option String)
    (googleCall : GoogleRequest → GoogleOutcome) : String :=
  if provider == "openai" then
    get_openai_chat_response names.openai_default_model env.openaiKey text
      file_content filename openaiCall
  else if provider == "google" then
    get_google_gemini_response names.google_default_model names.google_vision_model
      env.googleKey text file_content filename mime_type googleConfigureError googleCall
  else ""

/-- The endpoint's success/failure classification of the adapter's string
(source lines 111-119): an "Error:"-prefixed string becomes a 500 with that
exact string as detail, anything else the JSON success body. -/
def classifyResponse (response_text : String) : EndpointResult :=
  if startsWithStr response_text "Error:" then .httpError 500 response_text
  else .ok response_text

/-- generate_text (source lines 65-128): provider validation, API-key
check, file handling, adapter dispatch, result classification. The outbound
calls of the two adapters are the oracle parameters. -/
def generate_text (names : ModelNames) (env : Env) (provider text : String)
    (file : Option FileUpload) (openaiCall : OpenAIRequest → OpenAIOutcome)
    (googleConfigureError : Option String)
    (googleCall : GoogleRequest → GoogleOutcome) : EndpointResult :=
  if !(provider == "openai" || provider == "google") then
    .httpError 400 "Invalid AI provider specified. Choose \x27openai\x27 or \x27google\x27."
  else
    match _check_api_key env provider with
    | some err => err
    | none =>
      match fileReadError file with
      | some e => .httpError 400 ("Error processing uploaded file: " ++ e)
      | none =>
        classifyResponse (adapterResponse names env provider text (fileBytes file)
          (fileName file) (fileMime file) openaiCall googleConfigureError googleCall)

/-! ## Helper lemmas -/

/-- strTruthy at None. -/
theorem strTruthy_none : strTruthy none = false := rfl

/-- bytesTruthy at None. -/
theorem bytesTruthy_none : bytesTruthy none = false := rfl

/-! ## Claims -/

/-- Claim C1: for every string result returned by either adapter to the
/api/generate endpoint, if the result starts with "Error:" then the endpoint
raises an HTTP 500 whose detail is exactly that adapter string, unmodified
and not wrapped in any other message. -/
theorem C1_error_detail_propagated (names : ModelNames) (env : Env)
    (provider text : String) (file : Option FileUpload)
    (oc : OpenAIRequest → OpenAIOutcome) (ge : Option String)
    (gc : GoogleRequest → GoogleOutcome) (s : String)
    (hprov : provider = "openai" ∨ provider = "google")
    (hkey : _check_api_key env provider = none)
    (hread : fileReadError file = none)
    (hres : adapterResponse names env provider text (fileBytes file) (fileName file)
      (fileMime file) oc ge gc = s)
    (herr : startsWithStr s "Error:" = true) :
    generate_text names env provider text file oc ge gc = .httpError 500 s := by
  rcases hprov with h | h <;> subst h <;>
    simp [generate_text, hkey, hread, hres, classifyResponse, herr]

/-- Witness for C1: a connection failure reported by the OpenAI adapter is
relayed verbatim as the 500 detail. -/
theorem C1_error_detail_propagated_witness :
    generate_text ⟨"m", "gd", "gv"⟩ ⟨some "k", some "k"⟩ "openai" "hi" none
        (fun _ => .connectionError "boom") none (fun _ => .otherError "x" "T") =
      .httpError 500 "Error: OpenAI API Connection Error - boom" :=
  C1_error_detail_propagated ⟨"m", "gd", "gv"⟩ ⟨some "k", some "k"⟩ "openai" "hi" none
    (fun _ => .connectionError "boom") none (fun _ => .otherError "x" "T")
    "Error: OpenAI API Connection Error - boom"
    (Or.inl rfl) (by decide) (by decide) (by decide) (by decide)

/-- Claim C2: for every call to the Google adapter with a file (content,
filename and MIME type all present) whose MIME type indicates an image, the
adapter selects the configured vision model and sends contents equal to the
two-element list [prompt, image-part-from-bytes(data, mime_type)] — never
the text-excerpt-splicing path. -/
theorem C2_google_image_path (defaultModel visionModel : String)
    (apiKey : Option String) (prompt : String) (bs : List Nat) (fn mt : String)
    (callApi : GoogleRequest → GoogleOutcome)
    (hbs : bytesTruthy (some bs) = true)
    (hfn : strTruthy (some fn) = true)
    (hmt : strTruthy (some mt) = true)
    (him : indicatesImage mt = true)
    (hkey : strTruthy apiKey = true) :
    buildGoogleRequest defaultModel visionModel prompt (some bs) (some fn) (some mt) =
      .ok ⟨visionModel, [.text prompt, .imagePart bs mt]⟩ ∧
    get_google_gemini_response defaultModel visionModel apiKey prompt (some bs)
        (some fn) (some mt) none callApi =
      handleGoogleOutcome visionModel
        (callApi ⟨visionModel, [.text prompt, .imagePart bs mt]⟩) := by
  have h1 : buildGoogleRequest defaultModel visionModel prompt (some bs) (some fn) (some mt) =
      .ok ⟨visionModel, [.text prompt, .imagePart bs mt]⟩ := by
    simp [buildGoogleRequest, hbs, hfn, hmt, him]
  exact ⟨h1, by simp [get_google_gemini_response, hkey, h1]⟩

/-- Witness for C2: a PNG upload goes to the vision model as
[prompt, image part]. -/
theorem C2_google_image_path_witness :
    buildGoogleRequest "gd" "gv" "hi" (some [1, 2]) (some "a.png") (some "image/png") =
      .ok ⟨"gv", [.text "hi", .imagePart [1, 2] "image/png"]⟩ ∧
    get_google_gemini_response "gd" "gv" (some "k") "hi" (some [1, 2]) (some "a.png")
        (some "image/png") none (fun _ => .otherError "x" "T") =
      handleGoogleOutcome "gv"
        ((fun _ => GoogleOutcome.otherError "x" "T")
          (GoogleRequest.mk "gv" [.text "hi", .imagePart [1, 2] "image/png"])) :=
  C2_google_image_path "gd" "gv" (some "k") "hi" [1, 2] "a.png" "image/png"
    (fun _ => .otherError "x" "T") (by decide) (by decide) (by decide) (by decide) (by decide)

/-- Claim C3 counterexample: the claim says the OpenAI adapter decodes the
excerpt replacing undecodable bytes; on the one-byte file 0xFF the source's
errors="ignore" decode produces the empty excerpt, not the replacement
character U+FFFD the claim predicts. -/
theorem C3_counterexample :
    buildOpenAIMessages "p" (some [0xFF]) (some "data.bin") =
      [⟨"system", "The user has uploaded a file named \x27data.bin\x27. " ++
          "Its content (first 2000 characters) is: "⟩,
        ⟨"user", "p"⟩] ∧
    String.mk (utf8Decode .replace [0xFF]) = "�" ∧
    ¬ buildOpenAIMessages "p" (some [0xFF]) (some "data.bin") =
      [⟨"system", "The user has uploaded a file named \x27data.bin\x27. " ++
          "Its content (first 2000 characters) is: �"⟩,
        ⟨"user", "p"⟩] := by decide

/-- Claim C3 (amended): for every call to the OpenAI adapter with a
non-empty file and a filename, the adapter decodes up to the first 2000
bytes of the file as text best-effort, dropping undecodable bytes
(errors="ignore"), and prepends a system-role message containing the
filename and that excerpt before the user-role prompt message. -/
theorem C3_openai_excerpt_ignore (defaultModel : String) (apiKey : Option String)
    (prompt : String) (bs : List Nat) (fn : String)
    (oc : OpenAIRequest → OpenAIOutcome)
    (hbs : bytesTruthy (some bs) = true)
    (hfn : strTruthy (some fn) = true)
    (hkey : strTruthy apiKey = true) :
    buildOpenAIMessages prompt (some bs) (some fn) =
      [⟨"system", "The user has uploaded a file named \x27" ++ fn ++
          "\x27. Its content (first 2000 characters) is: " ++
          String.mk (utf8Decode .ignore (bs.take 2000))⟩,
        ⟨"user", prompt⟩] ∧
    get_openai_chat_response defaultModel apiKey prompt (some bs) (some fn) oc =
      handleOpenAIOutcome (oc ⟨defaultModel,
        [⟨"system", "The user has uploaded a file named \x27" ++ fn ++
            "\x27. Its content (first 2000 characters) is: " ++
            String.mk (utf8Decode .ignore (bs.take 2000))⟩,
          ⟨"user", prompt⟩], 1024⟩) := by
  have h1 : buildOpenAIMessages prompt (some bs) (some fn) =
      [⟨"system", "The user has uploaded a file named \x27" ++ fn ++
          "\x27. Its content (first 2000 characters) is: " ++
          String.mk (utf8Decode .ignore (bs.take 2000))⟩,
        ⟨"user", prompt⟩] := by
    simp [buildOpenAIMessages, hbs, hfn]
  exact ⟨h1, by simp [get_openai_chat_response, hkey, h1]⟩

/-- Witness for C3 (amended): a two-byte text file is excerpted with
errors="ignore" into the system message. -/
theorem C3_openai_excerpt_ignore_witness :
    buildOpenAIMessages "p" (some [0x68, 0x69]) (some "a.txt") =
      [⟨"system", "The user has uploaded a file named \x27a.txt\x27. " ++
          "Its content (first 2000 characters) is: hi"⟩,
        ⟨"user", "p"⟩] ∧
    get_openai_chat_response "m" (some "k") "p" (some [0x68, 0x69]) (some "a.txt")
        (fun _ => .otherError "x") =
      handleOpenAIOutcome ((fun _ => OpenAIOutcome.otherError "x") (OpenAIRequest.mk "m"
        [⟨"system", "The user has uploaded a file named \x27a.txt\x27. " ++
            "Its content (first 2000 characters) is: hi"⟩,
          ⟨"user", "p"⟩] 1024)) := by
  have h := C3_openai_excerpt_ignore "m" (some "k") "p" [0x68, 0x69] "a.txt"
    (fun _ => .otherError "x") (by decide) (by decide) (by decide)
  exact ⟨by rw [h.1]; decide, h.2⟩

/-- Claim C4: for every call to the OpenAI adapter with a prompt and no
file, the message list sent to the chat-completion API is exactly
[roleuser-prompt], and on success (a result not prefixed "Error:") the
endpoint returns the adapter's returned text as the response body. -/
theorem C4_no_file_single_message (defaultModel : String) (apiKey : Option String)
    (prompt : String) (oc : OpenAIRequest → OpenAIOutcome)
    (names : ModelNames) (env : Env) (ge : Option String)
    (gc : GoogleRequest → GoogleOutcome) (t : String)
    (hkey : strTruthy apiKey = true)
    (hkey2 : strTruthy env.openaiKey = true)
    (ht : adapterResponse names env "openai" prompt none none none oc ge gc = t)
    (hok : startsWithStr t "Error:" = false) :
    buildOpenAIMessages prompt none none = [⟨"user", prompt⟩] ∧
    get_openai_chat_response defaultModel apiKey prompt none none oc =
      handleOpenAIOutcome (oc ⟨defaultModel, [⟨"user", prompt⟩], 1024⟩) ∧
    generate_text names env "openai" prompt none oc ge gc = .ok t := by
  refine ⟨by simp [buildOpenAIMessages, bytesTruthy], ?_, ?_⟩
  · simp [get_openai_chat_response, hkey, buildOpenAIMessages, bytesTruthy]
  · simp [generate_text, _check_api_key, hkey2, fileReadError, fileBytes, fileName,
      fileMime, ht, classifyResponse, hok]

/-- Witness for C4: prompt "Hello OpenAI" with no file yields the single
user message, and the endpoint wraps the generated text. -/
theorem C4_no_file_single_message_witness :
    buildOpenAIMessages "Hello OpenAI" none none = [⟨"user", "Hello OpenAI"⟩] ∧
    get_openai_chat_response "m" (some "k") "Hello OpenAI" none none
        (fun _ => .success [⟨some ⟨some "Generated!"⟩⟩]) =
      handleOpenAIOutcome ((fun _ => OpenAIOutcome.success [⟨some ⟨some "Generated!"⟩⟩])
        (OpenAIRequest.mk "m" [⟨"user", "Hello OpenAI"⟩] 1024)) ∧
    generate_text ⟨"m", "gd", "gv"⟩ ⟨some "k", none⟩ "openai" "Hello OpenAI" none
        (fun _ => .success [⟨some ⟨some "Generated!"⟩⟩]) none
        (fun _ => .otherError "x" "T") =
      .ok "Generated!" :=
  C4_no_file_single_message "m" (some "k") "Hello OpenAI"
    (fun _ => .success [⟨some ⟨some "Generated!"⟩⟩]) ⟨"m", "gd", "gv"⟩ ⟨some "k", none⟩
    none (fun _ => .otherError "x" "T") "Generated!"
    (by decide) (by decide) (by decide) (by decide)

/-- Claim C5: for every call to the Google adapter with a file (content,
filename and MIME type all present) whose MIME type does not indicate an
image, the adapter keeps the configured default model and sends a single
content string equal to the enhanced-prompt template with the prompt, the
filename, the MIME type, and the excerpt of the first 50000 file bytes
decoded with undecodable bytes replaced, spliced in verbatim. -/
theorem C5_google_text_splice (defaultModel visionModel : String)
    (apiKey : Option String) (prompt : String) (bs : List Nat) (fn mt : String)
    (callApi : GoogleRequest → GoogleOutcome)
    (hbs : bytesTruthy (some bs) = true)
    (hfn : strTruthy (some fn) = true)
    (hmt : strTruthy (some mt) = true)
    (him : indicatesImage mt = false)
    (hkey : strTruthy apiKey = true) :
    buildGoogleRequest defaultModel visionModel prompt (some bs) (some fn) (some mt) =
      .ok ⟨defaultModel, [.text (prompt ++ "\n\n--- User Uploaded File: " ++ fn ++
        " (MIME type: " ++ mt ++ ") ---\n" ++
        String.mk (utf8Decode .replace (bs.take 50000)) ++
        "\n--- End of File Content ---")]⟩ ∧
    get_google_gemini_response defaultModel visionModel apiKey prompt (some bs)
        (some fn) (some mt) none callApi =
      handleGoogleOutcome defaultModel
        (callApi ⟨defaultModel, [.text (prompt ++ "\n\n--- User Uploaded File: " ++ fn ++
          " (MIME type: " ++ mt ++ ") ---\n" ++
          String.mk (utf8Decode .replace (bs.take 50000)) ++
          "\n--- End of File Content ---")]⟩) := by
  have h1 : buildGoogleRequest defaultModel visionModel prompt (some bs) (some fn) (some mt) =
      .ok ⟨defaultModel, [.text (prompt ++ "\n\n--- User Uploaded File: " ++ fn ++
        " (MIME type: " ++ mt ++ ") ---\n" ++
        String.mk (utf8Decode .replace (bs.take 50000)) ++
        "\n--- End of File Content ---")]⟩ := by
    simp [buildGoogleRequest, hbs, hfn, hmt, him]
  exact ⟨h1, by simp [get_google_gemini_response, hkey, h1]⟩

/-- Witness for C5: a two-byte plain-text upload is spliced into the
enhanced prompt for the default model. -/
theorem C5_google_text_splice_witness :
    buildGoogleRequest "gd" "gv" "hi" (some [0x68, 0x69]) (some "a.txt")
        (some "text/plain") =
      .ok ⟨"gd", [.text ("hi" ++ "\n\n--- User Uploaded File: " ++ "a.txt" ++
        " (MIME type: " ++ "text/plain" ++ ") ---\n" ++
        String.mk (utf8Decode .replace ([0x68, 0x69].take 50000)) ++
        "\n--- End of File Content ---")]⟩ ∧
    get_google_gemini_response "gd" "gv" (some "k") "hi" (some [0x68, 0x69])
        (some "a.txt") (some "text/plain") none (fun _ => .otherError "x" "T") =
      handleGoogleOutcome "gd"
        ((fun _ => GoogleOutcome.otherError "x" "T") (GoogleRequest.mk "gd"
          [.text ("hi" ++ "\n\n--- User Uploaded File: " ++ "a.txt" ++
            " (MIME type: " ++ "text/plain" ++ ") ---\n" ++
            String.mk (utf8Decode .replace ([0x68, 0x69].take 50000)) ++
            "\n--- End of File Content ---")])) :=
  C5_google_text_splice "gd" "gv" (some "k") "hi" [0x68, 0x69] "a.txt" "text/plain"
    (fun _ => .otherError "x" "T") (by decide) (by decide) (by decide) (by decide) (by decide)

/-- Claim C6: for every call to the Google adapter with non-empty file
content, if the filename or the MIME type is missing (absent or empty), the
adapter returns an "Error: ..." validation failure without making any
outbound API call (the result is the same for every oracle), rather than
proceeding with a default. -/
theorem C6_google_missing_metadata (defaultModel visionModel : String)
    (apiKey : Option String) (prompt : String) (bs : List Nat)
    (fn mt : Option String) (callApi : GoogleRequest → GoogleOutcome)
    (hbs : bytesTruthy (some bs) = true)
    (hmiss : strTruthy fn = false ∨ strTruthy mt = false)
    (hkey : strTruthy apiKey = true) :
    get_google_gemini_response defaultModel visionModel apiKey prompt (some bs)
        fn mt none callApi =
      "Error: File content provided without filename or MIME type. Both are " ++
        "required for Google Gemini." ∧
    startsWithStr ("Error: File content provided without filename or MIME type. Both are " ++
        "required for Google Gemini.") "Error:" = true := by
  have h1 : buildGoogleRequest defaultModel visionModel prompt (some bs) fn mt =
      .error ("Error: File content provided without filename or MIME type. Both are " ++
        "required for Google Gemini.") := by
    rcases hmiss with h | h <;> simp [buildGoogleRequest, hbs, h]
  exact ⟨by simp [get_google_gemini_response, hkey, h1], by decide⟩

/-- Witness for C6: a non-empty file with a MIME type but no filename is
rejected by the Google adapter before any call. -/
theorem C6_google_missing_metadata_witness :
    get_google_gemini_response "gd" "gv" (some "k") "hi" (some [1]) none
        (some "text/plain") none (fun _ => .otherError "x" "T") =
      "Error: File content provided without filename or MIME type. Both are " ++
        "required for Google Gemini." ∧
    startsWithStr ("Error: File content provided without filename or MIME type. Both are " ++
        "required for Google Gemini.") "Error:" = true :=
  C6_google_missing_metadata "gd" "gv" (some "k") "hi" [1] none (some "text/plain")
    (fun _ => .otherError "x" "T") (by decide) (Or.inl (by decide)) (by decide)

/-- Claim C7: for every request to /api/generate with a recognized provider
whose API-key environment variable is unset or empty, the endpoint raises
HTTP 500 with a message containing "OPENAI_API_KEY not configured."
(respectively "GOOGLE_API_KEY not configured." for provider "google")
before any file read or adapter/outbound call is attempted: the result
below does not depend on the file argument or on either adapter oracle. -/
theorem C7_missing_key_500 (names : ModelNames) (env : Env) (text : String)
    (file : Option FileUpload) (oc : OpenAIRequest → OpenAIOutcome)
    (ge : Option String) (gc : GoogleRequest → GoogleOutcome) :
    (strTruthy env.openaiKey = false →
      generate_text names env "openai" text file oc ge gc =
        .httpError 500 "OPENAI_API_KEY not configured. Please set it in the .env file." ∧
      containsStr "OPENAI_API_KEY not configured. Please set it in the .env file."
        "OPENAI_API_KEY not configured." = true) ∧
    (strTruthy env.googleKey = false →
      generate_text names env "google" text file oc ge gc =
        .httpError 500 "GOOGLE_API_KEY not configured. Please set it in the .env file." ∧
      containsStr "GOOGLE_API_KEY not configured. Please set it in the .env file."
        "GOOGLE_API_KEY not configured." = true) := by
  constructor
  · intro h
    exact ⟨by simp [generate_text, _check_api_key, h], by decide⟩
  · intro h
    exact ⟨by simp [generate_text, _check_api_key, h], by decide⟩

/-- Witness for C7: with both keys unset, both providers report the
configuration 500 even when the file read would fail and the oracles would
answer. -/
theorem C7_missing_key_500_witness :
    (generate_text ⟨"m", "gd", "gv"⟩ ⟨none, none⟩ "openai" "t"
        (some ⟨some "f", some "text/plain", .error "disk"⟩)
        (fun _ => .otherError "x") none (fun _ => .otherError "x" "T") =
      .httpError 500 "OPENAI_API_KEY not configured. Please set it in the .env file." ∧
      containsStr "OPENAI_API_KEY not configured. Please set it in the .env file."
        "OPENAI_API_KEY not configured." = true) ∧
    (generate_text ⟨"m", "gd", "gv"⟩ ⟨none, none⟩ "google" "t"
        (some ⟨some "f", some "text/plain", .error "disk"⟩)
        (fun _ => .otherError "x") none (fun _ => .otherError "x" "T") =
      .httpError 500 "GOOGLE_API_KEY not configured. Please set it in the .env file." ∧
      containsStr "GOOGLE_API_KEY not configured. Please set it in the .env file."
        "GOOGLE_API_KEY not configured." = true) := by
  have h := C7_missing_key_500 ⟨"m", "gd", "gv"⟩ ⟨none, none⟩ "t"
    (some ⟨some "f", some "text/plain", .error "disk"⟩)
    (fun _ => .otherError "x") none (fun _ => .otherError "x" "T")
  exact ⟨h.1 (by decide), h.2 (by decide)⟩

/-- Claim C8: the endpoint classifies success versus failure solely by the
"Error:" string prefix of the adapter's return value: a successful
generation whose text itself begins with "Error:" is reported as HTTP 500
instead of a response body, and the post-dispatch classification is exactly
the prefix test. -/
theorem C8_prefix_only_classification (names : ModelNames) (env : Env)
    (text : String) (gc : GoogleRequest → GoogleOutcome) (s : String)
    (hkey : strTruthy env.openaiKey = true) :
    generate_text names env "openai" text none
        (fun _ => .success [⟨some ⟨some "Error: generated story text"⟩⟩]) none gc =
      .httpError 500 "Error: generated story text" ∧
    classifyResponse s = if startsWithStr s "Error:" then .httpError 500 s else .ok s := by
  constructor
  · have h1 : get_openai_chat_response names.openai_default_model env.openaiKey text
        none none (fun _ => OpenAIOutcome.success
          [⟨some ⟨some "Error: generated story text"⟩⟩]) =
        "Error: generated story text" := by
      simp [get_openai_chat_response, hkey]
      decide
    simp [generate_text, _check_api_key, hkey, fileReadError, fileBytes, fileName,
      fileMime, adapterResponse, h1, classifyResponse]
    decide
  · rfl

/-- Witness for C8: concrete instance of the misclassified successful
generation. -/
theorem C8_prefix_only_classification_witness :
    generate_text ⟨"m", "gd", "gv"⟩ ⟨some "k", none⟩ "openai" "p" none
        (fun _ => .success [⟨some ⟨some "Error: generated story text"⟩⟩]) none
        (fun _ => .otherError "x" "T") =
      .httpError 500 "Error: generated story text" ∧
    classifyResponse "Error: a" =
      if startsWithStr "Error: a" "Error:" then .httpError 500 "Error: a"
      else .ok "Error: a" :=
  C8_prefix_only_classification ⟨"m", "gd", "gv"⟩ ⟨some "k", none⟩ "p"
    (fun _ => .otherError "x" "T") "Error: a" (by decide)

/-- Claim C9: for every call to the OpenAI adapter with non-empty file
content but no filename, the adapter does not fail: it still prepends a
system-role message labelling the file as name-not-provided with the
decoded excerpt and proceeds with the API call — unlike the Google adapter,
which rejects a file lacking a filename. -/
theorem C9_openai_no_filename_proceeds (defaultModel : String)
    (apiKey : Option String) (prompt : String) (bs : List Nat)
    (oc : OpenAIRequest → OpenAIOutcome) (gd gv : String) (gmt : Option String)
    (hbs : bytesTruthy (some bs) = true)
    (hkey : strTruthy apiKey = true) :
    get_openai_chat_response defaultModel apiKey prompt (some bs) none oc =
      handleOpenAIOutcome (oc ⟨defaultModel,
        [⟨"system", "The user has uploaded a file (name not provided). Its content " ++
            "(first 2000 characters) is: " ++
            String.mk (utf8Decode .ignore (bs.take 2000))⟩,
          ⟨"user", prompt⟩], 1024⟩) ∧
    buildGoogleRequest gd gv prompt (some bs) none gmt =
      .error ("Error: File content provided without filename or MIME type. Both are " ++
        "required for Google Gemini.") := by
  constructor
  · simp [get_openai_chat_response, hkey, buildOpenAIMessages, hbs, strTruthy_none]
  · simp [buildGoogleRequest, hbs, strTruthy_none]

/-- Witness for C9: a one-byte file without filename still reaches the
OpenAI call with the name-not-provided system message, while the Google
builder rejects it. -/
theorem C9_openai_no_filename_proceeds_witness :
    get_openai_chat_response "m" (some "k") "p" (some [0x68]) none
        (fun _ => .otherError "x") =
      handleOpenAIOutcome ((fun _ => OpenAIOutcome.otherError "x") (OpenAIRequest.mk "m"
        [⟨"system", "The user has uploaded a file (name not provided). Its content " ++
            "(first 2000 characters) is: " ++
            String.mk (utf8Decode .ignore ([0x68].take 2000))⟩,
          ⟨"user", "p"⟩] 1024)) ∧
    buildGoogleRequest "gd" "gv" "p" (some [0x68]) none (some "text/plain") =
      .error ("Error: File content provided without filename or MIME type. Both are " ++
        "required for Google Gemini.") :=
  C9_openai_no_filename_proceeds "m" (some "k") "p" [0x68]
    (fun _ => .otherError "x") "gd" "gv" (some "text/plain") (by decide) (by decide)

/-- Claim C10: for every call to the Google adapter with a file (content,
filename and MIME type all present), the vision model and image path are
selected exactly when the lowercased MIME type contains the substring
"image" anywhere; in particular the non-image MIME type
"application/x-imagemap" takes the binary image path. -/
theorem C10_image_substring_selection (defaultModel visionModel : String)
    (prompt : String) (bs : List Nat) (fn mt : String)
    (hbs : bytesTruthy (some bs) = true)
    (hfn : strTruthy (some fn) = true)
    (hmt : strTruthy (some mt) = true) :
    (buildGoogleRequest defaultModel visionModel prompt (some bs) (some fn) (some mt) =
        .ok ⟨visionModel, [.text prompt, .imagePart bs mt]⟩ ↔
      indicatesImage mt = true) ∧
    indicatesImage "application/x-imagemap" = true ∧
    buildGoogleRequest defaultModel visionModel prompt (some bs) (some fn)
        (some "application/x-imagemap") =
      .ok ⟨visionModel, [.text prompt, .imagePart bs "application/x-imagemap"]⟩ := by
  refine ⟨?_, by decide, ?_⟩
  · by_cases him : indicatesImage mt = true
    · simp [buildGoogleRequest, hbs, hfn, hmt, him]
    · simp only [Bool.not_eq_true] at him
      simp [buildGoogleRequest, hbs, hfn, hmt, him]
  · have him : indicatesImage "application/x-imagemap" = true := by decide
    have hm : strTruthy (some "application/x-imagemap") = true := by decide
    simp [buildGoogleRequest, hbs, hfn, hm, him]

/-- Witness for C10: with MIME type "application/x-imagemap" the adapter
builds the binary image payload for the vision model. -/
theorem C10_image_substring_selection_witness :
    (buildGoogleRequest "gd" "gv" "p" (some [7]) (some "map.bin") (some "text/plain") =
        .ok ⟨"gv", [.text "p", .imagePart [7] "text/plain"]⟩ ↔
      indicatesImage "text/plain" = true) ∧
    indicatesImage "application/x-imagemap" = true ∧
    buildGoogleRequest "gd" "gv" "p" (some [7]) (some "map.bin")
        (some "application/x-imagemap") =
      .ok ⟨"gv", [.text "p", .imagePart [7] "application/x-imagemap"]⟩ :=
  C10_image_substring_selection "gd" "gv" "p" [7] "map.bin" "text/plain"
    (by decide) (by decide) (by decide)

end Relay
